import Mathlib

/-!
# Verification of the data-nexus bridge extension runtime

Shallow embedding of the plugin runtime of the repository
(`plugins/registry.py`, `plugins/executor.py`, `plugins/signals.py`,
`plugins/dependencies.py`, `plugins/source_manager.py`) together with
proofs about the behaviour of its operations.

Conventions of the embedding:
* Python dicts keyed by strings become association lists
  (`List (String × α)`) with `List.lookup`; assignment is modelled by
  `dictInsert` which overwrites in place or appends.
* Exceptions become `Except String`: `.error` models a raised exception
  carrying `str(e)`.
* Database side effects (ExecutionLog rows, helper calls) are modelled as
  an explicit trace of `Action`s emitted by each executor entry point.
* `metadata : dict` fields of the result dataclasses are omitted: no code
  under test reads or writes them.
-/

deriving instance DecidableEq for Except

namespace DataNexus

/-- `PluginComponent.component_type` (plugins/models.py). -/
inductive CompType
  | importer
  | preprocessor
  | postprocessor
  | datasource
deriving DecidableEq, Repr

/-- Opaque JSON configuration payloads (`config = models.JSONField`). -/
abbrev Config := List (String × String)

/-- The slice of `affinda_bridge.models.Document` that the plugin runtime
reads: identity fields, the collection it belongs to, and the lifecycle
fields consumed by the signal dispatcher. -/
structure Document where
  identifier : String
  fileName : String
  customIdentifier : String
  collection : Option String
  state : String
  isConfirmed : Bool
  failed : Bool
deriving DecidableEq, Repr

/-- `plugins.base.ImportResult`. -/
structure ImportResult where
  success : Bool
  documentIdentifier : Option String := none
  fileName : Option String := none
  customIdentifier : Option String := none
  message : String := ""
deriving DecidableEq, Repr

/-- `plugins.base.PreProcessResult`. -/
structure PreProcessResult where
  success : Bool
  newFileName : Option String := none
  newCustomIdentifier : Option String := none
  message : String := ""
  abort : Bool := false
deriving DecidableEq, Repr

/-- `plugins.base.PostProcessResult`. -/
structure PostProcessResult where
  success : Bool
  archiveDocument : Bool := false
  newCustomIdentifier : Option String := none
  newFileName : Option String := none
  message : String := ""
deriving DecidableEq, Repr

/-- `plugins.base.DataSourceSyncResult`. -/
structure DataSourceSyncResult where
  success : Bool
  recordsSynced : Nat := 0
  recordsCreated : Nat := 0
  recordsUpdated : Nat := 0
  recordsFailed : Nat := 0
  errors : List String := []
  message : String := ""
deriving DecidableEq, Repr

/-- Python dict assignment `d[k] = v`: overwrite in place when the key is
present, append otherwise (dicts preserve insertion order). -/
def dictInsert (k : String) (v : α) (d : List (String × α)) : List (String × α) :=
  if (d.lookup k).isSome then
    d.map (fun p => if p.1 == k then (k, v) else p)
  else
    d ++ [(k, v)]

/-! ## Capability Registry (`plugins/registry.py`)

A loaded implementation class is modelled by its discoverable data: the
metadata slugs and the lists of component classes it declares.  `implId`
distinguishes two distinct implementation classes that happen to declare
the same slugs. -/

/-- A component implementation class (the value stored in the four
component maps of `PluginRegistry`). -/
structure ComponentImpl where
  slug : String
  implId : Nat
deriving DecidableEq, Repr

/-- A plugin implementation class (`BasePlugin` subclass): its
`get_meta()` slug and the component classes returned by the four
`get_*` accessors. -/
structure PluginImpl where
  slug : String
  name : String
  version : String
  importers : List ComponentImpl := []
  preprocessors : List ComponentImpl := []
  postprocessors : List ComponentImpl := []
  datasources : List ComponentImpl := []
  implId : Nat
deriving DecidableEq, Repr

/-- The five maps of `PluginRegistry.__init__`. -/
structure PluginRegistry where
  plugins : List (String × PluginImpl) := []
  importers : List (String × ComponentImpl) := []
  preprocessors : List (String × ComponentImpl) := []
  postprocessors : List (String × ComponentImpl) := []
  datasources : List (String × ComponentImpl) := []
deriving DecidableEq, Repr

/-- The per-kind loop bodies of `PluginRegistry.register_plugin`: insert
each component class under `{plugin_slug}.{component_slug}`. -/
def registerComponents (pluginSlug : String) (cs : List ComponentImpl)
    (m : List (String × ComponentImpl)) : List (String × ComponentImpl) :=
  cs.foldl (fun acc c => dictInsert (pluginSlug ++ "." ++ c.slug) c acc) m

/-- `PluginRegistry.register_plugin`: an already-present plugin slug is a
warned no-op; otherwise the plugin and each of its declared components
are inserted into the matching maps. -/
def PluginRegistry.register_plugin (reg : PluginRegistry) (p : PluginImpl) :
    PluginRegistry :=
  if (reg.plugins.lookup p.slug).isSome then
    reg
  else
    { plugins := dictInsert p.slug p reg.plugins
      importers := registerComponents p.slug p.importers reg.importers
      preprocessors := registerComponents p.slug p.preprocessors reg.preprocessors
      postprocessors := registerComponents p.slug p.postprocessors reg.postprocessors
      datasources := registerComponents p.slug p.datasources reg.datasources }

/-! ## Executor (`plugins/executor.py`)

The executor resolves implementation *classes* from the registry and runs
them.  For execution we model a registered class by its observable
behaviour: the error list returned by `validate_config()` and the
`Except`-valued capability method (`.error e` models the method raising
an exception whose `str` is `e`). -/

/-- An importer class as the executor sees it. -/
structure ImporterImpl where
  validateErrors : List String
  run : Except String (List ImportResult)

/-- A pre-processor class as the executor sees it. -/
structure PreImpl where
  validateErrors : List String
  run : Document → Except String PreProcessResult

/-- A post-processor class as the executor sees it. -/
structure PostImpl where
  validateErrors : List String
  run : Document → String → Except String PostProcessResult

/-- A data-source class as the executor sees it (`sync` is the default
orchestration of `BaseDataSource.sync`, which never raises past its own
boundary, but we keep the `Except` so that nothing forces that here). -/
structure DataSourceImpl where
  validateErrors : List String
  sync : String → Except String DataSourceSyncResult

/-- The four component maps of the global `plugin_registry`, restricted
to the behavioural view used by the executor. -/
structure ExecRegistry where
  importers : List (String × ImporterImpl) := []
  preprocessors : List (String × PreImpl) := []
  postprocessors : List (String × PostImpl) := []
  datasources : List (String × DataSourceImpl) := []

/-- `plugins.models.PluginInstance` joined with its component and plugin:
`pluginSlug`/`componentSlug` give the fully-qualified identifier,
`pluginEnabled` is `component.plugin.enabled`. -/
structure PluginInstance where
  name : String
  componentType : CompType
  pluginSlug : String
  componentSlug : String
  enabled : Bool
  pluginEnabled : Bool
  priority : Int
  config : Config
  eventTriggers : List String
  collections : List String
  affindaDataSource : Option String
deriving DecidableEq, Repr

/-- `f"{instance.component.plugin.slug}.{instance.component.slug}"`. -/
def fullSlug (inst : PluginInstance) : String :=
  inst.pluginSlug ++ "." ++ inst.componentSlug

/-- The `input_data` snapshot stored on the ExecutionLog row of each of
the four entry points. -/
inductive LogInput
  | importerInput (config : Config)
  | preInput (identifier fileName customIdentifier : String)
  | postInput (identifier event : String)
  | dsInput (config : Config) (affindaDataSource : String)
deriving DecidableEq, Repr

/-- Observable side effects of one executor run, in program order. -/
inductive Action
  | logCreate (input : LogInput)
  | logComplete (status : String)
  | capabilityRun
  | helperArchive (identifier : String)
  | helperUpdateCustomIdentifier (identifier newId : String)
  | helperRename (identifier newName : String)
deriving DecidableEq, Repr

/-- `if instance.collections.exists() and document.collection:` followed
by `document.collection not in instance.collections.all()`. -/
def collectionFiltered (inst : PluginInstance) (doc : Document) : Bool :=
  match doc.collection with
  | none => false
  | some c => !inst.collections.isEmpty && !(inst.collections.contains c)

/-- `if instance.event_triggers and event not in instance.event_triggers:`
(an empty trigger list matches every event). -/
def eventFiltered (inst : PluginInstance) (event : String) : Bool :=
  !inst.eventTriggers.isEmpty && !(inst.eventTriggers.contains event)

/-- `str(ValueError(f"Configuration errors: ..."))`. -/
def configErrorMessage (errors : List String) : String :=
  "Configuration errors: " ++ String.intercalate ", " errors

/-- `execute_importer` (plugins/executor.py:23).  The first component of
the value is the returned result list (`.error` models the uncaught
type-mismatch `ValueError`), the second the emitted side effects. -/
def execute_importer (reg : ExecRegistry) (inst : PluginInstance) :
    Except String (List ImportResult) × List Action :=
  if inst.componentType ≠ CompType.importer then
    (.error ("Instance " ++ inst.name ++ " is not an importer"), [])
  else if !inst.enabled then
    (.ok [], [])
  else
    match reg.importers.lookup (fullSlug inst) with
    | none =>
        (.ok [{ success := false,
                message := "Importer class not found: " ++ fullSlug inst }], [])
    | some impl =>
        let created := [Action.logCreate (.importerInput inst.config)]
        if !impl.validateErrors.isEmpty then
          (.ok [{ success := false,
                  message := configErrorMessage impl.validateErrors }],
           created ++ [Action.logComplete "failed"])
        else
          match impl.run with
          | .ok rs =>
              (.ok rs, created ++ [Action.capabilityRun, Action.logComplete "success"])
          | .error e =>
              (.ok [{ success := false, message := e }],
               created ++ [Action.capabilityRun, Action.logComplete "failed"])

/-- `execute_preprocessor` (plugins/executor.py:105). -/
def execute_preprocessor (reg : ExecRegistry) (inst : PluginInstance)
    (doc : Document) : Except String PreProcessResult × List Action :=
  if inst.componentType ≠ CompType.preprocessor then
    (.error ("Instance " ++ inst.name ++ " is not a pre-processor"), [])
  else if !inst.enabled then
    (.ok { success := true, message := "Pre-processor disabled" }, [])
  else if collectionFiltered inst doc then
    (.ok { success := true, message := "Document not in configured collections" }, [])
  else
    match reg.preprocessors.lookup (fullSlug inst) with
    | none =>
        (.ok { success := false, message := "Class not found: " ++ fullSlug inst }, [])
    | some impl =>
        let created :=
          [Action.logCreate (.preInput doc.identifier doc.fileName doc.customIdentifier)]
        if !impl.validateErrors.isEmpty then
          (.ok { success := false, message := configErrorMessage impl.validateErrors },
           created ++ [Action.logComplete "failed"])
        else
          match impl.run doc with
          | .ok r =>
              (.ok r, created ++ [Action.capabilityRun, Action.logComplete "success"])
          | .error e =>
              (.ok { success := false, message := e },
               created ++ [Action.capabilityRun, Action.logComplete "failed"])

/-- `execute_postprocessor` (plugins/executor.py:189).  On a successful
capability run, the declarative result is translated into helper calls
(archive, update custom identifier, rename — in that order). -/
def execute_postprocessor (reg : ExecRegistry) (inst : PluginInstance)
    (doc : Document) (event : String) :
    Except String PostProcessResult × List Action :=
  if inst.componentType ≠ CompType.postprocessor then
    (.error ("Instance " ++ inst.name ++ " is not a post-processor"), [])
  else if !inst.enabled then
    (.ok { success := true, message := "Post-processor disabled" }, [])
  else if eventFiltered inst event then
    (.ok { success := true, message := "Event " ++ event ++ " not in triggers" }, [])
  else if collectionFiltered inst doc then
    (.ok { success := true, message := "Document not in configured collections" }, [])
  else
    match reg.postprocessors.lookup (fullSlug inst) with
    | none =>
        (.ok { success := false, message := "Class not found: " ++ fullSlug inst }, [])
    | some impl =>
        let created := [Action.logCreate (.postInput doc.identifier event)]
        if !impl.validateErrors.isEmpty then
          (.ok { success := false, message := configErrorMessage impl.validateErrors },
           created ++ [Action.logComplete "failed"])
        else
          match impl.run doc event with
          | .ok r =>
              let archiveActs :=
                if r.archiveDocument then [Action.helperArchive doc.identifier] else []
              let idActs :=
                match r.newCustomIdentifier with
                | some nid => [Action.helperUpdateCustomIdentifier doc.identifier nid]
                | none => []
              let renameActs :=
                match r.newFileName with
                | some nfn => [Action.helperRename doc.identifier nfn]
                | none => []
              (.ok r, created ++ [Action.capabilityRun] ++ archiveActs ++ idActs
                        ++ renameActs ++ [Action.logComplete "success"])
          | .error e =>
              (.ok { success := false, message := e },
               created ++ [Action.capabilityRun, Action.logComplete "failed"])

/-- `execute_datasource` (plugins/executor.py:368). -/
def execute_datasource (reg : ExecRegistry) (inst : PluginInstance) :
    Except String DataSourceSyncResult × List Action :=
  if inst.componentType ≠ CompType.datasource then
    (.error ("Instance " ++ inst.name ++ " is not a data source"), [])
  else if !inst.enabled then
    (.ok { success := true, message := "Data source disabled" }, [])
  else
    match inst.affindaDataSource with
    | none =>
        (.ok { success := false,
               message := "No Affinda data source configured for this instance" }, [])
    | some dsId =>
        match reg.datasources.lookup (fullSlug inst) with
        | none =>
            (.ok { success := false,
                   message := "Data source class not found: " ++ fullSlug inst }, [])
        | some impl =>
            let created := [Action.logCreate (.dsInput inst.config dsId)]
            if !impl.validateErrors.isEmpty then
              let msg := configErrorMessage impl.validateErrors
              (.ok { success := false, errors := [msg],
                     message := "Data source sync failed: " ++ msg },
               created ++ [Action.logComplete "failed"])
            else
              match impl.sync dsId with
              | .ok r =>
                  (.ok r, created ++ [Action.capabilityRun,
                     Action.logComplete (if r.success then "success" else "failed")])
              | .error e =>
                  (.ok { success := false, errors := [e],
                         message := "Data source sync failed: " ++ e },
                   created ++ [Action.capabilityRun, Action.logComplete "failed"])

/-- The queryset of `execute_preprocessors`/`execute_postprocessors`:
enabled instances of the given component type whose owning plugin is
enabled, ordered by ascending priority (`order_by('priority')`). -/
def enabledInstancesOfType (db : List PluginInstance) (t : CompType) :
    List PluginInstance :=
  (db.filter (fun i => i.enabled && i.pluginEnabled && i.componentType == t)).insertionSort
    (fun a b => a.priority ≤ b.priority)

/-- The result appended to the chain's list for one pre-processor run:
the returned result on a normal return, a fresh failed result when the
call raised (the `except` branch of the loop body). -/
def preResult (reg : ExecRegistry) (doc : Document) (inst : PluginInstance) :
    PreProcessResult :=
  match (execute_preprocessor reg inst doc).1 with
  | .ok r => r
  | .error e => { success := false, message := e }

/-- The side effects of one pre-processor run. -/
def preTrace (reg : ExecRegistry) (doc : Document) (inst : PluginInstance) :
    List Action :=
  (execute_preprocessor reg inst doc).2

/-- Whether one run of the chain's loop body breaks the loop: only a
normally returned result with `abort=True` does (a raised exception skips
the abort check and the loop continues). -/
def preAborts (reg : ExecRegistry) (doc : Document) (inst : PluginInstance) :
    Bool :=
  match (execute_preprocessor reg inst doc).1 with
  | .ok r => r.abort
  | .error _ => false

/-- The `for instance in instances:` loop of `execute_preprocessors`. -/
def runPreChain (reg : ExecRegistry) (doc : Document) :
    List PluginInstance → List PreProcessResult × List Action
  | [] => ([], [])
  | inst :: rest =>
    match execute_preprocessor reg inst doc with
    | (.error e, tr) =>
        (({ success := false, message := e } : PreProcessResult)
           :: (runPreChain reg doc rest).1,
         tr ++ (runPreChain reg doc rest).2)
    | (.ok r, tr) =>
        if r.abort then
          ([r], tr)
        else
          (r :: (runPreChain reg doc rest).1, tr ++ (runPreChain reg doc rest).2)

/-- `execute_preprocessors` (plugins/executor.py:330). -/
def execute_preprocessors (reg : ExecRegistry) (db : List PluginInstance)
    (doc : Document) : List PreProcessResult × List Action :=
  runPreChain reg doc (enabledInstancesOfType db CompType.preprocessor)

/-- The result appended to the fan-out's list for one post-processor run. -/
def postResult (reg : ExecRegistry) (doc : Document) (event : String)
    (inst : PluginInstance) : PostProcessResult :=
  match (execute_postprocessor reg inst doc event).1 with
  | .ok r => r
  | .error e => { success := false, message := e }

/-- The side effects of one post-processor run. -/
def postTrace (reg : ExecRegistry) (doc : Document) (event : String)
    (inst : PluginInstance) : List Action :=
  (execute_postprocessor reg inst doc event).2

/-- The `for instance in instances:` loop of `execute_postprocessors`:
the in-loop event filter `continue`s, every other instance contributes
exactly one result, exceptions are caught and appended as failures. -/
def runPostChain (reg : ExecRegistry) (doc : Document) (event : String) :
    List PluginInstance → List PostProcessResult × List Action
  | [] => ([], [])
  | inst :: rest =>
    if eventFiltered inst event then
      runPostChain reg doc event rest
    else
      let r :=
        match (execute_postprocessor reg inst doc event).1 with
        | .ok r => r
        | .error e => { success := false, message := e }
      (r :: (runPostChain reg doc event rest).1,
       (execute_postprocessor reg inst doc event).2
         ++ (runPostChain reg doc event rest).2)

/-- `execute_postprocessors` (plugins/executor.py:293). -/
def execute_postprocessors (reg : ExecRegistry) (db : List PluginInstance)
    (doc : Document) (event : String) : List PostProcessResult × List Action :=
  runPostChain reg doc event (enabledInstancesOfType db CompType.postprocessor)

/-! ## Event Dispatcher (`plugins/signals.py`) -/

/-- The attributes the `pre_save` receiver stores on the instance.  The
source captures only `_old_state` and `_old_is_confirmed`; it never
captures an `_old_failed` attribute. -/
structure TrackedOld where
  oldState : Option String
  oldIsConfirmed : Option Bool
deriving DecidableEq, Repr

/-- `track_document_changes` (plugins/signals.py:25): before the save,
capture the prior persisted state when the row exists (`instance.pk` set
and found), `None`s otherwise. -/
def track_document_changes (old : Option Document) : TrackedOld :=
  match old with
  | some o => { oldState := some o.state, oldIsConfirmed := some o.isConfirmed }
  | none => { oldState := none, oldIsConfirmed := none }

/-- Python truthiness of the captured `Optional[bool]` attribute. -/
def optTruthy : Option Bool → Bool
  | some b => b
  | none => false

/-- `getattr(instance, '_old_failed', False)`: `track_document_changes`
never sets `_old_failed`, so the getattr always yields its default. -/
def oldFailedAttr (_cap : TrackedOld) : Bool := false

/-- `emit_document_signals` (plugins/signals.py:45): the list of event
names fired for one committed write, in program order.  Each fired event
invokes `execute_postprocessors(document, event)`. -/
def emit_document_signals (cap : TrackedOld) (doc : Document) (created : Bool) :
    List String :=
  if created then
    ["document_uploaded"]
  else
    (if doc.isConfirmed && !(optTruthy cap.oldIsConfirmed) then
        ["document_approved"] else [])
      ++ (if doc.state == "archived" && !(cap.oldState == some "archived") then
            ["document_archived"] else [])
      ++ (if doc.failed && !(oldFailedAttr cap) then
            ["document_rejected"] else [])
      ++ ["document_updated"]

/-- One `Document.save()` as the dispatcher sees it: `old` is the prior
persisted row (`none` models a brand-new row, `created=True`). -/
def documentSave (old : Option Document) (doc : Document) : List String :=
  emit_document_signals (track_document_changes old) doc old.isNone

/-! ## Dependency Resolver (`plugins/dependencies.py`)

Versions are modelled by their release segments (`List Nat`), matching
the plain `N(.N)*` versions the dependency strings of this repository
use; comparison pads the shorter release with zeros as `packaging` does. -/

/-- A single comparison operator of a PEP 440 version specifier. -/
inductive SpecOp
  | ge | gt | le | lt | eql | ne
deriving DecidableEq, Repr

/-- One clause of a version specifier, e.g. `>=2`. -/
structure VersionSpec where
  op : SpecOp
  version : List Nat
deriving DecidableEq, Repr

/-- Split a character list at every occurrence of the separator
(`str.split(sep)` for a one-character separator). -/
def splitOnCharList (sep : Char) : List Char → List (List Char)
  | [] => [[]]
  | x :: xs =>
      match splitOnCharList sep xs with
      | [] => [[x]]
      | y :: ys => if x == sep then [] :: y :: ys else (x :: y) :: ys

/-- `int(segment)`: all-digit, non-empty. -/
def natFromDigits (cs : List Char) : Option Nat :=
  if cs.isEmpty then none
  else if cs.all Char.isDigit then
    some (cs.foldl (fun acc c => acc * 10 + (c.toNat - 48)) 0)
  else none

/-- Parse a release version from characters: dot-separated numeric
segments. -/
def parseVersionL (cs : List Char) : List Nat :=
  (splitOnCharList '.' cs).map (fun seg => (natFromDigits seg).getD 0)

/-- Parse a release version string: dot-separated numeric segments. -/
def parseVersion (s : String) : List Nat :=
  parseVersionL s.toList

/-- Compare two release-segment lists, implicitly zero-padding the
shorter one (PEP 440 release comparison). -/
def verCmp : List Nat → List Nat → Ordering
  | [], [] => .eq
  | [], b :: bs => if (b :: bs).all (· == 0) then .eq else .lt
  | a :: as, [] => if (a :: as).all (· == 0) then .eq else .gt
  | a :: as, b :: bs =>
      if a < b then .lt else if b < a then .gt else verCmp as bs

/-- `Specifier.contains` for one clause. -/
def specContains (sp : VersionSpec) (v : List Nat) : Bool :=
  match sp.op, verCmp v sp.version with
  | .ge, .lt => false
  | .ge, _ => true
  | .gt, .gt => true
  | .gt, _ => false
  | .le, .gt => false
  | .le, _ => true
  | .lt, .lt => true
  | .lt, _ => false
  | .eql, .eq => true
  | .eql, _ => false
  | .ne, .eq => false
  | .ne, _ => true

/-- Parse one specifier clause such as `>=2` or `<3`. -/
def parseSpec (cs : List Char) : Option VersionSpec :=
  match cs with
  | '>' :: '=' :: rest => some ⟨.ge, parseVersionL rest⟩
  | '<' :: '=' :: rest => some ⟨.le, parseVersionL rest⟩
  | '=' :: '=' :: rest => some ⟨.eql, parseVersionL rest⟩
  | '!' :: '=' :: rest => some ⟨.ne, parseVersionL rest⟩
  | '>' :: rest => some ⟨.gt, parseVersionL rest⟩
  | '<' :: rest => some ⟨.lt, parseVersionL rest⟩
  | _ => none

/-- Characters allowed in a package name. -/
def isNameChar (c : Char) : Bool :=
  c.isAlphanum || c == '-' || c == '_' || c == '.'

/-- `packaging.requirements.Requirement` restricted to the fragment
used by this repository: a package name followed by an optional
comma-separated version range.  Returns the name, the raw specifier text
(`str(req.specifier)`) and the parsed clauses; `none` models the parse
raising (the outer `except` of `check_dependency`). -/
def parseRequirement (s : String) : Option (String × String × List VersionSpec) :=
  let nameCs := s.toList.takeWhile isNameChar
  let restCs := s.toList.dropWhile isNameChar
  if nameCs.isEmpty then none
  else if restCs.isEmpty then some (String.mk nameCs, "", [])
  else
    match (splitOnCharList ',' restCs).mapM parseSpec with
    | some specs => some (String.mk nameCs, String.mk restCs, specs)
    | none => none

/-- `plugins.dependencies.DependencyStatus`. -/
structure DependencyStatus where
  package : String
  name : String
  requiredVersion : Option String
  installed : Bool
  installedVersion : Option String
  satisfied : Bool
deriving DecidableEq, Repr

/-- The host environment's installed-package metadata:
`importlib.metadata.version` as a name → version-string map. -/
abbrev InstalledEnv := List (String × String)

/-- `check_dependency` (plugins/dependencies.py:28). -/
def check_dependency (env : InstalledEnv) (reqStr : String) : DependencyStatus :=
  match parseRequirement reqStr with
  | none =>
      { package := reqStr, name := reqStr, requiredVersion := none,
        installed := false, installedVersion := none, satisfied := false }
  | some (pname, raw, specs) =>
      match env.lookup pname with
      | none =>
          { package := reqStr, name := pname,
            requiredVersion := if specs.isEmpty then none else some raw,
            installed := false, installedVersion := none, satisfied := false }
      | some iv =>
          let v := parseVersion iv
          let satisfied :=
            if specs.isEmpty then true else specs.all (fun sp => specContains sp v)
          { package := reqStr, name := pname,
            requiredVersion := if specs.isEmpty then none else some raw,
            installed := true, installedVersion := some iv, satisfied := satisfied }

/-! ## Source Manager (`plugins/source_manager.py`)

State is the persisted rows plus the on-disk cache (a set of existing
per-plugin cache directory paths); the network and the dynamic loader are
an environment of outcomes.  Public methods return the Python return
value (under `Except`, `.error` modelling a raised exception), the new
state, and a trace of filesystem/registry effects. -/

/-- `plugins.base.PluginMeta` as returned by a loaded class's
`get_meta()`. -/
structure PluginMeta where
  slug : String
  name : String
  version : String
  author : String := ""
  description : String := ""
deriving DecidableEq, Repr

/-- `plugins.base.ComponentMeta`. -/
structure ComponentMeta where
  slug : String
  name : String
  description : String := ""
deriving DecidableEq, Repr

/-- One entry of a multi-plugin manifest (or the synthesised entry of a
single/inferred manifest).  `entryPoint = none` models a missing
`entry_point` key (`.get('entry_point', 'plugin.py')` at use sites). -/
structure PluginInfo where
  slug : String
  name : String := ""
  version : String := ""
  description : String := ""
  entryPoint : Option String := none
  path : String := ""
deriving DecidableEq, Repr

/-- `manifest['_manifest_type']` as set by `GitHubHandler.fetch_manifest`. -/
inductive ManifestType
  | multi | single | inferred | unknownKind
deriving DecidableEq, Repr

/-- A fetched manifest payload. -/
structure Manifest where
  mtype : ManifestType
  plugins : List PluginInfo := []
  slug : String := ""
  name : String := ""
  version : String := ""
  description : String := ""
  entryPoint : Option String := none
deriving DecidableEq, Repr

/-- `plugins.models.PluginSource` (the fields the source manager touches). -/
structure PluginSource where
  slug : String
  name : String
  url : String
  isMultiPlugin : Bool := false
  manifestData : Option Manifest := none
  latestVersion : String := ""
  lastFetchedAt : Option Nat := none
  lastCheckedAt : Option Nat := none
  errorMessage : String := ""
deriving DecidableEq, Repr

/-- `plugins.models.Plugin` (the fields the source manager touches). -/
structure PluginRow where
  slug : String
  name : String
  author : String
  version : String
  description : String
  enabled : Bool
  sourceSlug : Option String
  sourcePath : String
  installedVersion : String
  availableVersion : String
  updateAvailable : Bool
deriving DecidableEq, Repr

/-- `plugins.models.PluginComponent` as persisted by
`_register_plugin_components`. -/
structure ComponentRow where
  pluginSlug : String
  componentType : CompType
  slug : String
  name : String
  description : String
deriving DecidableEq, Repr

/-- An operator-created instance row (owned by a component; the update
path never touches these). -/
structure InstanceRow where
  pluginSlug : String
  componentSlug : String
  name : String
deriving DecidableEq, Repr

/-- The result of `load_plugin_from_path`: a live plugin class.
`getMeta` is the third-party `get_meta()` classmethod, which may itself
raise (`.error`); the four component lists are the metas of the classes
returned by the `get_*` accessors. -/
structure LoadedPlugin where
  getMeta : Except String PluginMeta
  importers : List ComponentMeta := []
  preprocessors : List ComponentMeta := []
  postprocessors : List ComponentMeta := []
  datasources : List ComponentMeta := []
deriving DecidableEq, Repr

/-- `get_handler_for_url`'s classification of a source URL. -/
inductive HandlerKind
  | github | direct | unknownUrl
deriving DecidableEq, Repr

/-- Environment of external outcomes for one source-manager call. -/
structure SMEnv where
  handlerKind : HandlerKind
  fetchManifest : Except String (Option Manifest)
  downloadOk : Bool
  loadResult : Except String LoadedPlugin
deriving DecidableEq, Repr

/-- Persisted rows plus the existing cache directories (single source). -/
structure SMState where
  source : PluginSource
  plugins : List PluginRow
  components : List ComponentRow
  instances : List InstanceRow
  cacheDirs : List String
deriving DecidableEq, Repr

/-- Filesystem/registry effects of one source-manager call. -/
inductive SMAction
  | download (path dest : String)
  | removeDir (dest : String)
  | registerImpl (slug : String)
deriving DecidableEq, Repr

/-- `self.cache_dir / source.slug / plugin_slug`. -/
def pluginCacheDir (src : PluginSource) (pluginSlug : String) : String :=
  src.slug ++ "/" ++ pluginSlug

/-- `plugin.slug.split('.')[-1] if '.' in plugin.slug else plugin.slug`. -/
def lastSlugComponent (s : String) : String :=
  if s.toList.contains '.' then
    String.mk ((splitOnCharList '.' s.toList).getLastD s.toList)
  else s

/-- `fetch_source` (plugins/source_manager.py:55).  An unknown URL raises
before the `try` (no fields written); failures inside the `try` record
the error and the check timestamp and re-raise; success stores the
manifest, kind, advertised version and both timestamps and clears the
error. -/
def fetch_source (env : SMEnv) (now : Nat) (st : SMState) :
    Except String Manifest × SMState :=
  match env.handlerKind with
  | .unknownUrl =>
      (.error ("Unsupported URL format: " ++ st.source.url), st)
  | .direct =>
      let msg := "Direct URL sources not yet supported for manifest fetching"
      (.error ("Failed to fetch source: " ++ msg),
       { st with source :=
          { st.source with errorMessage := msg, lastCheckedAt := some now } })
  | .github =>
      match env.fetchManifest with
      | .error e =>
          (.error ("Failed to fetch source: " ++ e),
           { st with source :=
              { st.source with errorMessage := e, lastCheckedAt := some now } })
      | .ok none =>
          let msg := "No plugin manifest found at " ++ st.source.url
          (.error ("Failed to fetch source: " ++ msg),
           { st with source :=
              { st.source with errorMessage := msg, lastCheckedAt := some now } })
      | .ok (some m) =>
          (.ok m,
           { st with source :=
              { st.source with
                  isMultiPlugin := m.mtype == ManifestType.multi
                  manifestData := some m
                  latestVersion := m.version
                  lastFetchedAt := some now
                  lastCheckedAt := some now
                  errorMessage := "" } })

/-- The plugin list a manifest describes (`get_available_plugins` without
the installed-status annotation, which only decorates the returned
dicts). -/
def manifestPlugins (m : Manifest) : List PluginInfo :=
  match m.mtype with
  | .multi => m.plugins
  | .single | .inferred =>
      [{ slug := m.slug, name := m.name, version := m.version,
         description := m.description,
         entryPoint := some (m.entryPoint.getD "plugin.py"), path := "" }]
  | .unknownKind => []

/-- `get_available_plugins` (plugins/source_manager.py:106). -/
def get_available_plugins (st : SMState) : List PluginInfo :=
  match st.source.manifestData with
  | none => []
  | some m => manifestPlugins m

/-- `_register_plugin_components` (plugins/source_manager.py:249): one
`PluginComponent` row per declared component class, per kind. -/
def componentRows (pluginSlug : String) (lp : LoadedPlugin) : List ComponentRow :=
  lp.importers.map (fun c =>
      { pluginSlug, componentType := CompType.importer,
        slug := c.slug, name := c.name, description := c.description })
    ++ lp.preprocessors.map (fun c =>
      { pluginSlug, componentType := CompType.preprocessor,
        slug := c.slug, name := c.name, description := c.description })
    ++ lp.postprocessors.map (fun c =>
      { pluginSlug, componentType := CompType.postprocessor,
        slug := c.slug, name := c.name, description := c.description })
    ++ lp.datasources.map (fun c =>
      { pluginSlug, componentType := CompType.datasource,
        slug := c.slug, name := c.name, description := c.description })

/-- `install_plugin` (plugins/source_manager.py:156).  Only a
`PluginLoadError` from the loader removes the freshly written cache
directory; an exception raised later (here: the third-party `get_meta()`)
propagates with the cache directory left in place. -/
def install_plugin (env : SMEnv) (st : SMState) (pluginSlug : String) :
    Except String PluginRow × SMState × List SMAction :=
  match (get_available_plugins st).find? (fun p => p.slug == pluginSlug) with
  | none =>
      (.error ("Plugin '" ++ pluginSlug ++ "' not found in source '"
         ++ st.source.name ++ "'"), st, [])
  | some info =>
      let full := st.source.slug ++ "." ++ pluginSlug
      if (st.plugins.find? (fun p => p.slug == full)).isSome then
        (.error ("Plugin '" ++ full ++ "' is already installed"), st, [])
      else
        let dir := pluginCacheDir st.source pluginSlug
        let preActs := if st.cacheDirs.contains dir then [SMAction.removeDir dir] else []
        let st1 := { st with cacheDirs := st.cacheDirs.filter (· ≠ dir) ++ [dir] }
        if env.handlerKind ≠ HandlerKind.github then
          (.error "Direct URL sources not yet supported for installation", st1, preActs)
        else
          let acts := preActs ++ [SMAction.download info.path dir]
          if !env.downloadOk then
            (.error ("Failed to download plugin files for " ++ pluginSlug), st1, acts)
          else
            match env.loadResult with
            | .error e =>
                (.error ("Failed to load plugin: " ++ e),
                 { st1 with cacheDirs := st1.cacheDirs.filter (· ≠ dir) },
                 acts ++ [SMAction.removeDir dir])
            | .ok lp =>
                match lp.getMeta with
                | .error e => (.error e, st1, acts)
                | .ok meta =>
                    let row : PluginRow :=
                      { slug := full, name := meta.name, author := meta.author,
                        version := meta.version, description := meta.description,
                        enabled := true, sourceSlug := some st.source.slug,
                        sourcePath := info.path, installedVersion := meta.version,
                        availableVersion := "", updateAvailable := false }
                    (.ok row,
                     { st1 with plugins := st1.plugins ++ [row],
                                components := st1.components ++ componentRows full lp },
                     acts ++ [SMAction.registerImpl meta.slug])

/-- `update_plugin` (plugins/source_manager.py:305).  Re-fetches the
manifest, compares the advertised version to the installed one; equality
returns `False` before any cache/download/load/persistence step runs. -/
def update_plugin (env : SMEnv) (now : Nat) (st : SMState) (plugin : PluginRow) :
    Except String Bool × SMState × List SMAction :=
  match plugin.sourceSlug with
  | none => (.error "Plugin has no source - cannot update", st, [])
  | some _ =>
      match fetch_source env now st with
      | (.error e, st1) => (.error e, st1, [])
      | (.ok _, st1) =>
          let pluginSlug := lastSlugComponent plugin.slug
          match (get_available_plugins st1).find? (fun p => p.slug == pluginSlug) with
          | none => (.error "Plugin no longer available in source", st1, [])
          | some info =>
              if info.version == plugin.installedVersion then
                (.ok false, st1, [])
              else
                let dir := pluginCacheDir st1.source pluginSlug
                let preActs :=
                  if st1.cacheDirs.contains dir then [SMAction.removeDir dir] else []
                let st2 := { st1 with cacheDirs := st1.cacheDirs.filter (· ≠ dir) }
                if env.handlerKind ≠ HandlerKind.github then
                  (.error "Direct URL sources not yet supported", st2, preActs)
                else
                  let acts := preActs ++ [SMAction.download info.path dir]
                  if !env.downloadOk then
                    (.error "Failed to download updated plugin files", st2, acts)
                  else
                    let st3 := { st2 with cacheDirs := st2.cacheDirs ++ [dir] }
                    match env.loadResult with
                    | .error e =>
                        (.error ("Failed to load updated plugin: " ++ e), st3, acts)
                    | .ok lp =>
                        match lp.getMeta with
                        | .error e => (.error e, st3, acts)
                        | .ok meta =>
                            let row :=
                              { plugin with
                                  version := meta.version,
                                  installedVersion := meta.version,
                                  availableVersion := "",
                                  updateAvailable := false,
                                  description := meta.description }
                            (.ok true,
                             { st3 with
                                plugins := st3.plugins.map
                                  (fun p => if p.slug == plugin.slug then row else p),
                                components :=
                                  st3.components.filter (fun c => c.pluginSlug ≠ plugin.slug)
                                    ++ componentRows plugin.slug lp },
                             acts ++ [SMAction.registerImpl meta.slug])

/-! ## Theorems -/

/-- Looking up a key appended to an association list in which it is
absent finds the appended value. -/
theorem lookup_append_single {α : Type} (d : List (String × α)) (k : String)
    (v : α) (h : d.lookup k = none) : (d ++ [(k, v)]).lookup k = some v := by
  induction d with
  | nil => simp [List.lookup]
  | cons a t ih =>
      obtain ⟨k', v'⟩ := a
      rw [List.cons_append]
      rw [show List.lookup k ((k', v') :: (t ++ [(k, v)]))
            = if k == k' then some v' else List.lookup k (t ++ [(k, v)]) by
          simp [List.lookup]; split <;> simp_all]
      rw [show List.lookup k ((k', v') :: t)
            = if k == k' then some v' else List.lookup k t by
          simp [List.lookup]; split <;> simp_all] at h
      by_cases hk : k == k'
      · rw [if_pos hk] at h
        exact absurd h (by simp)
      · rw [if_neg hk] at h
        rw [if_neg hk]
        exact ih h

/-- C2.  Re-registering the slug of an already-registered plugin is a
no-op: the registry state after registering `p` and then any `q` with the
same extension slug equals the state after registering `p` alone, so the
plugin map (when the slug was fresh, it now maps to `p`) and all four
fully-qualified component maps are exactly those of the first
registration. -/
theorem register_plugin_first_wins (reg : PluginRegistry) (p q : PluginImpl)
    (hslug : q.slug = p.slug) :
    ((reg.register_plugin p).register_plugin q = reg.register_plugin p) ∧
    (reg.plugins.lookup p.slug = none →
      (reg.register_plugin p).plugins.lookup p.slug = some p) := by
  have hsome : ((reg.register_plugin p).plugins.lookup p.slug).isSome = true := by
    cases h : reg.plugins.lookup p.slug with
    | some x =>
        simp [PluginRegistry.register_plugin, h]
    | none =>
        simp [PluginRegistry.register_plugin, h, dictInsert,
          lookup_append_single reg.plugins p.slug p h]
  refine ⟨?_, ?_⟩
  · conv_lhs => rw [PluginRegistry.register_plugin]
    rw [hslug, if_pos hsome]
  · intro h
    simp [PluginRegistry.register_plugin, h, dictInsert,
      lookup_append_single reg.plugins p.slug p h]

def pW : PluginImpl :=
  { slug := "acme", name := "Acme", version := "1.0.0",
    importers := [⟨"word-count", 1⟩], implId := 1 }

def qW : PluginImpl :=
  { slug := "acme", name := "Acme fork", version := "2.0.0",
    importers := [⟨"word-count", 2⟩], implId := 2 }

def regEmptyW : PluginRegistry := {}

/-- C2 witness: concrete double registration under slug `acme`. -/
theorem register_plugin_first_wins_witness :
    ((regEmptyW.register_plugin pW).register_plugin qW
        = regEmptyW.register_plugin pW) ∧
    (regEmptyW.plugins.lookup pW.slug = none →
      (regEmptyW.register_plugin pW).plugins.lookup pW.slug = some pW) :=
  register_plugin_first_wins regEmptyW pW qW rfl

/-- C5.  A disabled instance is a no-op success for each of the four
executor entry points: the importer returns the empty result list (no
failed item), the other three a `success=True` result, and the trace is
empty, so no ExecutionLog row is created and no helper call is made. -/
theorem disabled_instance_noop (reg : ExecRegistry) (inst : PluginInstance)
    (doc : Document) (event : String) (hdis : inst.enabled = false) :
    (inst.componentType = CompType.importer →
       execute_importer reg inst = (.ok [], [])) ∧
    (inst.componentType = CompType.preprocessor →
       execute_preprocessor reg inst doc
         = (.ok { success := true, message := "Pre-processor disabled" }, [])) ∧
    (inst.componentType = CompType.postprocessor →
       execute_postprocessor reg inst doc event
         = (.ok { success := true, message := "Post-processor disabled" }, [])) ∧
    (inst.componentType = CompType.datasource →
       execute_datasource reg inst
         = (.ok { success := true, message := "Data source disabled" }, [])) := by
  refine ⟨fun h => ?_, fun h => ?_, fun h => ?_, fun h => ?_⟩ <;>
    simp [execute_importer, execute_preprocessor, execute_postprocessor,
      execute_datasource, h, hdis]

def emptyExecReg : ExecRegistry := {}

def disabledImporterW : PluginInstance :=
  { name := "imp-1", componentType := CompType.importer, pluginSlug := "acme",
    componentSlug := "mail", enabled := false, pluginEnabled := true,
    priority := 0, config := [], eventTriggers := [], collections := [],
    affindaDataSource := none }

def docW : Document :=
  { identifier := "doc-1", fileName := "a.pdf", customIdentifier := "",
    collection := none, state := "review", isConfirmed := false,
    failed := false }

/-- C5 witness: a concrete disabled importer instance. -/
theorem disabled_instance_noop_witness :
    (disabledImporterW.componentType = CompType.importer →
       execute_importer emptyExecReg disabledImporterW = (.ok [], [])) ∧
    (disabledImporterW.componentType = CompType.preprocessor →
       execute_preprocessor emptyExecReg disabledImporterW docW
         = (.ok { success := true, message := "Pre-processor disabled" }, [])) ∧
    (disabledImporterW.componentType = CompType.postprocessor →
       execute_postprocessor emptyExecReg disabledImporterW docW "document_updated"
         = (.ok { success := true, message := "Post-processor disabled" }, [])) ∧
    (disabledImporterW.componentType = CompType.datasource →
       execute_datasource emptyExecReg disabledImporterW
         = (.ok { success := true, message := "Data source disabled" }, [])) :=
  disabled_instance_noop emptyExecReg disabledImporterW docW "document_updated" rfl

/-- C10.  The collection-scope filter only applies when the document has
a collection: a document with no collection is never skipped by it, and
both the pre-processor and post-processor entry points behave identically
under any two scope restrictions. -/
theorem scope_filter_needs_collection (reg : ExecRegistry)
    (inst : PluginInstance) (doc : Document) (event : String)
    (s1 s2 : List String) (hcol : doc.collection = none) :
    collectionFiltered { inst with collections := s1 } doc = false ∧
    execute_preprocessor reg { inst with collections := s1 } doc
      = execute_preprocessor reg { inst with collections := s2 } doc ∧
    execute_postprocessor reg { inst with collections := s1 } doc event
      = execute_postprocessor reg { inst with collections := s2 } doc event := by
  refine ⟨?_, ?_, ?_⟩ <;>
    simp [collectionFiltered, execute_preprocessor, execute_postprocessor,
      eventFiltered, fullSlug, hcol]

def scopedPreInstW : PluginInstance :=
  { name := "pre-1", componentType := CompType.preprocessor,
    pluginSlug := "acme", componentSlug := "trim", enabled := true,
    pluginEnabled := true, priority := 0, config := [], eventTriggers := [],
    collections := [], affindaDataSource := none }

/-- C10 witness: concrete document without a collection under a scoped
and an unscoped instance. -/
theorem scope_filter_needs_collection_witness :
    collectionFiltered { scopedPreInstW with collections := ["invoices"] } docW
        = false ∧
    execute_preprocessor emptyExecReg
        { scopedPreInstW with collections := ["invoices"] } docW
      = execute_preprocessor emptyExecReg
          { scopedPreInstW with collections := [] } docW ∧
    execute_postprocessor emptyExecReg
        { scopedPreInstW with collections := ["invoices"] } docW "document_updated"
      = execute_postprocessor emptyExecReg
          { scopedPreInstW with collections := [] } docW "document_updated" :=
  scope_filter_needs_collection emptyExecReg scopedPreInstW docW
    "document_updated" ["invoices"] [] rfl

/-- C8.  A dependency is reported satisfied exactly when the package is
installed and either there is no version range or the installed version
matches every clause of it; concretely, `requests>=2,<3` is unsatisfied
at installed version `1.9.0` and satisfied at `2.5.0`. -/
theorem check_dependency_satisfied (env : InstalledEnv)
    (req pname raw : String) (specs : List VersionSpec)
    (hparse : parseRequirement req = some (pname, raw, specs)) :
    ((check_dependency env req).satisfied = true ↔
        ((env.lookup pname).isSome = true ∧
          (specs = [] ∨
            specs.all (fun sp =>
              specContains sp (parseVersion ((env.lookup pname).getD ""))) = true))) ∧
    (check_dependency [("requests", "1.9.0")] "requests>=2,<3").satisfied
        = false ∧
    (check_dependency [("requests", "2.5.0")] "requests>=2,<3").satisfied
        = true := by
  refine ⟨?_, by decide, by decide⟩
  unfold check_dependency
  rw [hparse]
  cases henv : env.lookup pname with
  | none => simp [henv]
  | some iv =>
      by_cases hs : specs = []
      · simp [henv, hs]
      · simp [henv, hs, List.all_eq_true]

/-- C8 witness: the `requests>=2,<3` requirement against an environment
with `requests 2.5.0` installed. -/
theorem check_dependency_satisfied_witness :
    ((check_dependency [("requests", "2.5.0")] "requests>=2,<3").satisfied = true ↔
        (([(("requests" : String), ("2.5.0" : String))].lookup "requests").isSome = true ∧
          ([⟨SpecOp.ge, [2]⟩, ⟨SpecOp.lt, [3]⟩] = ([] : List VersionSpec) ∨
            ([⟨SpecOp.ge, [2]⟩, ⟨SpecOp.lt, [3]⟩] : List VersionSpec).all
              (fun sp => specContains sp
                (parseVersion (([(("requests" : String), ("2.5.0" : String))].lookup
                  "requests").getD ""))) = true))) ∧
    (check_dependency [("requests", "1.9.0")] "requests>=2,<3").satisfied
        = false ∧
    (check_dependency [("requests", "2.5.0")] "requests>=2,<3").satisfied
        = true :=
  check_dependency_satisfied [("requests", "2.5.0")] "requests>=2,<3"
    "requests" ">=2,<3" [⟨SpecOp.ge, [2]⟩, ⟨SpecOp.lt, [3]⟩] (by decide)

def alreadyFailedDocW : Document :=
  { identifier := "doc-2", fileName := "b.pdf", customIdentifier := "",
    collection := none, state := "review", isConfirmed := false,
    failed := true }

/-- C9.  Failing input for the dispatcher: saving an already-failed
document (prior persisted row has `failed=True`, the write keeps
`failed=True`) still fires `document_rejected`, because the pre-save
tracker never captures `_old_failed` and the post-save guard's getattr
always sees its `False` default; the claim (and the code's own transition
guard) require no rejected event here. -/
theorem rejected_fires_without_transition :
    documentSave (some alreadyFailedDocW) alreadyFailedDocW
      = ["document_rejected", "document_updated"] := by
  decide

def preInstW : PluginInstance :=
  { name := "pre-1", componentType := CompType.preprocessor,
    pluginSlug := "acme", componentSlug := "trim", enabled := true,
    pluginEnabled := true, priority := 0, config := [], eventTriggers := [],
    collections := [], affindaDataSource := none }

/-- C1 counterexample: an enabled pre-processor instance whose
implementation is absent from the registry.  The call returns a failed
result but its effect trace is empty — no ExecutionLog row (started or
failed) is ever created, contradicting the claim that the failure is
recorded in an ExecutionLog (and showing registry resolution runs before
any log is written). -/
theorem missing_implementation_not_logged :
    execute_preprocessor emptyExecReg preInstW docW
      = (.ok { success := false, message := "Class not found: acme.trim" }, []) := by
  rfl

/-- C1 (amended).  For every entry point on an enabled, matching,
unfiltered instance: a missing implementation yields a failed result with
an empty effect trace (no ExecutionLog), and when the implementation is
found, the first recorded effect is the creation of the started
ExecutionLog with its input snapshot — before validation, the capability
call and the completing update. -/
theorem execution_log_after_resolution (reg : ExecRegistry)
    (inst : PluginInstance) (doc : Document) (event dsId : String) :
    ((inst.componentType = CompType.importer → inst.enabled = true →
      reg.importers.lookup (fullSlug inst) = none →
      execute_importer reg inst
        = (.ok [{ success := false,
                  message := "Importer class not found: " ++ fullSlug inst }], [])) ∧
    (inst.componentType = CompType.preprocessor → inst.enabled = true →
      collectionFiltered inst doc = false →
      reg.preprocessors.lookup (fullSlug inst) = none →
      execute_preprocessor reg inst doc
        = (.ok { success := false,
                 message := "Class not found: " ++ fullSlug inst }, [])) ∧
    (inst.componentType = CompType.postprocessor → inst.enabled = true →
      eventFiltered inst event = false → collectionFiltered inst doc = false →
      reg.postprocessors.lookup (fullSlug inst) = none →
      execute_postprocessor reg inst doc event
        = (.ok { success := false,
                 message := "Class not found: " ++ fullSlug inst }, [])) ∧
    (inst.componentType = CompType.datasource → inst.enabled = true →
      inst.affindaDataSource = some dsId →
      reg.datasources.lookup (fullSlug inst) = none →
      execute_datasource reg inst
        = (.ok { success := false,
                 message := "Data source class not found: " ++ fullSlug inst }, []))) ∧
    ((∀ impl, inst.componentType = CompType.importer → inst.enabled = true →
      reg.importers.lookup (fullSlug inst) = some impl →
      (execute_importer reg inst).2.head?
        = some (Action.logCreate (.importerInput inst.config))) ∧
    (∀ impl, inst.componentType = CompType.preprocessor → inst.enabled = true →
      collectionFiltered inst doc = false →
      reg.preprocessors.lookup (fullSlug inst) = some impl →
      (execute_preprocessor reg inst doc).2.head?
        = some (Action.logCreate
            (.preInput doc.identifier doc.fileName doc.customIdentifier))) ∧
    (∀ impl, inst.componentType = CompType.postprocessor → inst.enabled = true →
      eventFiltered inst event = false → collectionFiltered inst doc = false →
      reg.postprocessors.lookup (fullSlug inst) = some impl →
      (execute_postprocessor reg inst doc event).2.head?
        = some (Action.logCreate (.postInput doc.identifier event))) ∧
    (∀ impl, inst.componentType = CompType.datasource → inst.enabled = true →
      inst.affindaDataSource = some dsId →
      reg.datasources.lookup (fullSlug inst) = some impl →
      (execute_datasource reg inst).2.head?
        = some (Action.logCreate (.dsInput inst.config dsId)))) := by
  constructor
  · refine ⟨fun h1 h2 h3 => ?_, fun h1 h2 hc h3 => ?_,
      fun h1 h2 he hc h3 => ?_, fun h1 h2 hd h3 => ?_⟩ <;>
      simp [execute_importer, execute_preprocessor, execute_postprocessor,
        execute_datasource, h1, h2, h3, *]
  · refine ⟨fun impl h1 h2 h3 => ?_, fun impl h1 h2 hc h3 => ?_,
      fun impl h1 h2 he hc h3 => ?_, fun impl h1 h2 hd h3 => ?_⟩ <;>
    · simp only [execute_importer, execute_preprocessor, execute_postprocessor,
        execute_datasource, h1, h2, h3, *]
      by_cases hv : impl.validateErrors.isEmpty <;>
        first
          | (simp [hv];
             first
              | (cases hr : impl.run <;> simp [hr])
              | (cases hr : impl.run doc <;> simp [hr])
              | (cases hr : impl.run doc event <;> simp [hr])
              | (cases hr : impl.sync dsId <;> simp [hr]))
          | simp [hv]

def preImplOkW : PreImpl :=
  { validateErrors := [], run := fun _ => .ok { success := true } }

def regWithPreW : ExecRegistry :=
  { preprocessors := [("acme.trim", preImplOkW)] }

/-- C1 witness: the missing-implementation case and the found case at
concrete inputs. -/
theorem execution_log_after_resolution_witness :
    (execute_preprocessor emptyExecReg preInstW docW
      = (.ok { success := false, message := "Class not found: acme.trim" }, [])) ∧
    ((execute_preprocessor regWithPreW preInstW docW).2.head?
      = some (Action.logCreate (.preInput "doc-1" "a.pdf" ""))) := by
  constructor
  · exact (execution_log_after_resolution emptyExecReg preInstW docW
      "document_updated" "sink-1").1.2.1 rfl rfl rfl rfl
  · exact (execution_log_after_resolution regWithPreW preInstW docW
      "document_updated" "sink-1").2.2.1 preImplOkW rfl rfl rfl rfl

/-- Chain lemma for C3: if positions before `k` do not abort and position
`k` does, the loop produces exactly the results and traces of the first
`k+1` positions. -/
theorem runPreChain_abort (reg : ExecRegistry) (doc : Document) :
    ∀ (l : List PluginInstance) (k : Nat) (hk : k < l.length),
      (∀ i (h : i < k), preAborts reg doc (l.get ⟨i, h.trans hk⟩) = false) →
      preAborts reg doc (l.get ⟨k, hk⟩) = true →
      runPreChain reg doc l
        = ((l.take (k + 1)).map (preResult reg doc),
           ((l.take (k + 1)).map (preTrace reg doc)).flatten) := by
  intro l
  induction l with
  | nil => intro k hk; exact absurd hk (by simp)
  | cons a rest ih =>
      intro k hk hbefore habort
      cases k with
      | zero =>
          cases hE : execute_preprocessor reg a doc with
          | mk res tr =>
              cases res with
              | error e =>
                  exact absurd habort (by simp [preAborts, hE])
              | ok r =>
                  have hr : r.abort = true := by
                    have := habort
                    simpa [preAborts, hE] using this
                  simp [runPreChain, hE, hr, preResult, preTrace]
      | succ j =>
          have h0 : preAborts reg doc a = false := hbefore 0 (Nat.succ_pos j)
          have hk' : j < rest.length := Nat.lt_of_succ_lt_succ hk
          have hrec := ih j hk'
            (fun i h => hbefore (i + 1) (Nat.succ_lt_succ h))
            habort
          cases hE : execute_preprocessor reg a doc with
          | mk res tr =>
              cases res with
              | error e =>
                  simp [runPreChain, hE, hrec, preResult, preTrace]
              | ok r =>
                  have hr : r.abort = false := by
                    have := h0
                    simpa [preAborts, hE] using this
                  simp [runPreChain, hE, hr, hrec, preResult, preTrace]

/-- C3.  When the instance at position `k` of the priority-ordered chain
of enabled pre-processor instances is the first whose run returns
`abort=True`, `execute_preprocessors` returns exactly the results of
positions `0..k`, and its whole effect trace is the concatenation of the
traces of those positions — no later instance executes. -/
theorem preprocessor_abort_stops_chain (reg : ExecRegistry)
    (db : List PluginInstance) (doc : Document) (l : List PluginInstance)
    (k : Nat) (hl : l = enabledInstancesOfType db CompType.preprocessor)
    (hk : k < l.length)
    (hbefore : ∀ i (h : i < k), preAborts reg doc (l.get ⟨i, h.trans hk⟩) = false)
    (habort : preAborts reg doc (l.get ⟨k, hk⟩) = true) :
    execute_preprocessors reg db doc
      = ((l.take (k + 1)).map (preResult reg doc),
         ((l.take (k + 1)).map (preTrace reg doc)).flatten) := by
  rw [execute_preprocessors, ← hl]
  exact runPreChain_abort reg doc l k hk hbefore habort

def preImplAbortW : PreImpl :=
  { validateErrors := [],
    run := fun _ => .ok { success := true, abort := true, message := "stop" } }

def preInstAbortW : PluginInstance :=
  { name := "pre-abort", componentType := CompType.preprocessor,
    pluginSlug := "acme", componentSlug := "halt", enabled := true,
    pluginEnabled := true, priority := 1, config := [], eventTriggers := [],
    collections := [], affindaDataSource := none }

def preInstLaterW : PluginInstance :=
  { name := "pre-later", componentType := CompType.preprocessor,
    pluginSlug := "acme", componentSlug := "later", enabled := true,
    pluginEnabled := true, priority := 2, config := [], eventTriggers := [],
    collections := [], affindaDataSource := none }

def regAbortW : ExecRegistry :=
  { preprocessors := [("acme.halt", preImplAbortW), ("acme.later", preImplOkW)] }

def dbAbortW : List PluginInstance := [preInstLaterW, preInstAbortW]

/-- C3 witness: a two-instance chain whose first (by priority) aborts;
the run returns only its result and only its trace. -/
theorem preprocessor_abort_stops_chain_witness :
    execute_preprocessors regAbortW dbAbortW docW
      = (([preInstAbortW, preInstLaterW].take 1).map (preResult regAbortW docW),
         (([preInstAbortW, preInstLaterW].take 1).map (preTrace regAbortW docW)).flatten) := by
  have h := preprocessor_abort_stops_chain regAbortW dbAbortW docW
    [preInstAbortW, preInstLaterW] 0 (by rfl) (by decide)
    (fun i h => absurd h (Nat.not_lt_zero i)) (by rfl)
  simpa using h

/-- Fan-out lemma for C4: the loop visits every instance of the chain,
skips exactly the event-filtered ones, and contributes each remaining
instance's own, independently computed, result and trace. -/
theorem runPostChain_eq (reg : ExecRegistry) (doc : Document) (event : String) :
    ∀ l : List PluginInstance,
      runPostChain reg doc event l
        = ((l.filter (fun i => !eventFiltered i event)).map
             (postResult reg doc event),
           ((l.filter (fun i => !eventFiltered i event)).map
             (postTrace reg doc event)).flatten) := by
  intro l
  induction l with
  | nil => rfl
  | cons a rest ih =>
      by_cases hf : eventFiltered a event <;>
        simp [runPostChain, hf, ih, postResult, postTrace]

/-- C4.  The post-processor fan-out has no early termination: the run is
exactly the per-instance map over the event-matching part of the
priority-ordered chain, so every instance's result and trace are those of
its own isolated execution, independent of any other instance's outcome;
and an instance whose capability raises gets that exception caught and
recorded as its own failed result with a failed ExecutionLog completion. -/
theorem postprocessor_fanout_independent (reg : ExecRegistry)
    (db : List PluginInstance) (doc : Document) (event : String) :
    (execute_postprocessors reg db doc event
      = (((enabledInstancesOfType db CompType.postprocessor).filter
            (fun i => !eventFiltered i event)).map (postResult reg doc event),
         (((enabledInstancesOfType db CompType.postprocessor).filter
            (fun i => !eventFiltered i event)).map
              (postTrace reg doc event)).flatten)) ∧
    (∀ inst impl e, inst.componentType = CompType.postprocessor →
      inst.enabled = true → eventFiltered inst event = false →
      collectionFiltered inst doc = false →
      reg.postprocessors.lookup (fullSlug inst) = some impl →
      impl.validateErrors = [] → impl.run doc event = .error e →
      postResult reg doc event inst = { success := false, message := e } ∧
      postTrace reg doc event inst
        = [Action.logCreate (.postInput doc.identifier event),
           Action.capabilityRun, Action.logComplete "failed"]) := by
  constructor
  · exact runPostChain_eq reg doc event (enabledInstancesOfType db CompType.postprocessor)
  · intro inst impl e h1 h2 he hc h3 hv hr
    constructor <;>
      simp [postResult, postTrace, execute_postprocessor, h1, h2, he, hc, h3, hv, hr]

def postImplRaiseW : PostImpl :=
  { validateErrors := [], run := fun _ _ => .error "boom" }

def postInstRaiseW : PluginInstance :=
  { name := "post-raise", componentType := CompType.postprocessor,
    pluginSlug := "acme", componentSlug := "explode", enabled := true,
    pluginEnabled := true, priority := 1, config := [], eventTriggers := [],
    collections := [], affindaDataSource := none }

def regPostRaiseW : ExecRegistry :=
  { postprocessors := [("acme.explode", postImplRaiseW)] }

/-- C4 witness: the fan-out shape at a concrete database, and the
caught-and-recorded failure of a concrete raising instance. -/
theorem postprocessor_fanout_independent_witness :
    (execute_postprocessors regPostRaiseW [postInstRaiseW] docW "document_updated"
      = (((enabledInstancesOfType [postInstRaiseW] CompType.postprocessor).filter
            (fun i => !eventFiltered i "document_updated")).map
              (postResult regPostRaiseW docW "document_updated"),
         (((enabledInstancesOfType [postInstRaiseW] CompType.postprocessor).filter
            (fun i => !eventFiltered i "document_updated")).map
              (postTrace regPostRaiseW docW "document_updated")).flatten)) ∧
    (postResult regPostRaiseW docW "document_updated" postInstRaiseW
        = { success := false, message := "boom" } ∧
      postTrace regPostRaiseW docW "document_updated" postInstRaiseW
        = [Action.logCreate (.postInput "doc-1" "document_updated"),
           Action.capabilityRun, Action.logComplete "failed"]) := by
  have h := postprocessor_fanout_independent regPostRaiseW [postInstRaiseW]
    docW "document_updated"
  exact ⟨h.1, h.2 postInstRaiseW postImplRaiseW "boom" rfl rfl rfl rfl rfl rfl rfl⟩

/-- C6.  When the freshly fetched manifest advertises exactly the
installed version, `update_plugin` returns `False` ("no update") with an
empty effect trace (no download, no cache removal, no re-registration)
and leaves the plugin rows, component rows, instance rows and cache
directories untouched. -/
theorem update_plugin_no_update (env : SMEnv) (now : Nat) (st : SMState)
    (plugin : PluginRow) (ssl : String) (m : Manifest) (info : PluginInfo)
    (hsrc : plugin.sourceSlug = some ssl)
    (hhk : env.handlerKind = HandlerKind.github)
    (hfetch : env.fetchManifest = .ok (some m))
    (hinfo : (manifestPlugins m).find?
        (fun p => p.slug == lastSlugComponent plugin.slug) = some info)
    (hver : info.version = plugin.installedVersion) :
    (update_plugin env now st plugin).1 = .ok false ∧
    (update_plugin env now st plugin).2.2 = [] ∧
    (update_plugin env now st plugin).2.1.plugins = st.plugins ∧
    (update_plugin env now st plugin).2.1.components = st.components ∧
    (update_plugin env now st plugin).2.1.instances = st.instances ∧
    (update_plugin env now st plugin).2.1.cacheDirs = st.cacheDirs := by
  rw [show update_plugin env now st plugin
        = (.ok false,
           { st with source :=
              { st.source with
                  isMultiPlugin := m.mtype == ManifestType.multi
                  manifestData := some m
                  latestVersion := m.version
                  lastFetchedAt := some now
                  lastCheckedAt := some now
                  errorMessage := "" } }, []) from ?_]
  · exact ⟨rfl, rfl, rfl, rfl, rfl, rfl⟩
  · unfold update_plugin fetch_source
    rw [hsrc, hhk, hfetch]
    simp [get_available_plugins, hinfo, hver]

def srcW : PluginSource :=
  { slug := "acme-src", name := "Acme Source",
    url := "https://github.com/acme/plugins" }

def manifestW : Manifest :=
  { mtype := ManifestType.multi,
    plugins := [{ slug := "word-count", name := "Word Count",
                  version := "1.0.0", entryPoint := some "plugin.py",
                  path := "extensions/word-count" }] }

def pluginRowW : PluginRow :=
  { slug := "acme-src.word-count", name := "Word Count", author := "",
    version := "1.0.0", description := "", enabled := true,
    sourceSlug := some "acme-src", sourcePath := "extensions/word-count",
    installedVersion := "1.0.0", availableVersion := "",
    updateAvailable := false }

def envNoUpdateW : SMEnv :=
  { handlerKind := HandlerKind.github,
    fetchManifest := .ok (some manifestW),
    downloadOk := true,
    loadResult := .ok
      ({ getMeta := .ok
          ({ slug := "word-count", name := "Word Count",
             version := "1.0.0" } : PluginMeta) } : LoadedPlugin) }

def stUpdateW : SMState :=
  { source := srcW, plugins := [pluginRowW],
    components := [{ pluginSlug := "acme-src.word-count",
                     componentType := CompType.preprocessor, slug := "wc",
                     name := "WC", description := "" }],
    instances := [{ pluginSlug := "acme-src.word-count",
                    componentSlug := "wc", name := "inst-1" }],
    cacheDirs := ["acme-src/word-count"] }

/-- C6 witness: a concrete source advertising the installed version. -/
theorem update_plugin_no_update_witness :
    (update_plugin envNoUpdateW 7 stUpdateW pluginRowW).1 = .ok false ∧
    (update_plugin envNoUpdateW 7 stUpdateW pluginRowW).2.2 = [] ∧
    (update_plugin envNoUpdateW 7 stUpdateW pluginRowW).2.1.plugins
        = stUpdateW.plugins ∧
    (update_plugin envNoUpdateW 7 stUpdateW pluginRowW).2.1.components
        = stUpdateW.components ∧
    (update_plugin envNoUpdateW 7 stUpdateW pluginRowW).2.1.instances
        = stUpdateW.instances ∧
    (update_plugin envNoUpdateW 7 stUpdateW pluginRowW).2.1.cacheDirs
        = stUpdateW.cacheDirs :=
  update_plugin_no_update envNoUpdateW 7 stUpdateW pluginRowW "acme-src"
    manifestW { slug := "word-count", name := "Word Count",
                version := "1.0.0", entryPoint := some "plugin.py",
                path := "extensions/word-count" }
    rfl rfl rfl (by decide) rfl

def envMetaRaisesW : SMEnv :=
  { handlerKind := HandlerKind.github,
    fetchManifest := .ok (some manifestW),
    downloadOk := true,
    loadResult := .ok ({ getMeta := .error "metadata access failed" } : LoadedPlugin) }

def stInstallW : SMState :=
  { source := { srcW with manifestData := some manifestW },
    plugins := [], components := [], instances := [], cacheDirs := [] }

/-- C7 counterexample: an install whose download and dynamic load succeed
but whose third-party `get_meta()` raises during persistence.  The
install fails, yet the per-extension cache directory is left on disk —
the claimed rollback does not happen for failures past the loader. -/
theorem failed_install_leaves_cache :
    (install_plugin envMetaRaisesW stInstallW "word-count").1
        = .error "metadata access failed" ∧
    (install_plugin envMetaRaisesW stInstallW "word-count").2.1.cacheDirs
        = ["acme-src/word-count"] := by
  constructor <;> rfl

/-- C7 (amended).  After the download step, only a loader failure
(`PluginLoadError`) rolls back the per-extension cache directory; a
failure raised later — here the implementation's `get_meta()` raising
while the plugin row is being persisted — propagates to the caller with
the cache directory still present. -/
theorem install_rollback_only_for_load_error (env : SMEnv) (st : SMState)
    (pluginSlug : String) (info : PluginInfo) (e : String)
    (hfind : (get_available_plugins st).find? (fun p => p.slug == pluginSlug)
        = some info)
    (hnotinst : st.plugins.find?
        (fun p => p.slug == st.source.slug ++ "." ++ pluginSlug) = none)
    (hhk : env.handlerKind = HandlerKind.github)
    (hdl : env.downloadOk = true) :
    (env.loadResult = .error e →
      (install_plugin env st pluginSlug).1
          = .error ("Failed to load plugin: " ++ e) ∧
      pluginCacheDir st.source pluginSlug
          ∉ (install_plugin env st pluginSlug).2.1.cacheDirs) ∧
    (∀ lp, env.loadResult = .ok lp → lp.getMeta = .error e →
      (install_plugin env st pluginSlug).1 = .error e ∧
      pluginCacheDir st.source pluginSlug
          ∈ (install_plugin env st pluginSlug).2.1.cacheDirs) := by
  constructor
  · intro hload
    unfold install_plugin
    rw [hfind]
    simp [hnotinst, hhk, hdl, hload, List.mem_filter]
  · intro lp hload hmeta
    unfold install_plugin
    rw [hfind]
    simp [hnotinst, hhk, hdl, hload, hmeta]

/-- C7 witness: the load-failure rollback and the metadata-failure
non-rollback at concrete inputs. -/
theorem install_rollback_only_for_load_error_witness :
    (({ envMetaRaisesW with loadResult := .error "no plugin class" } : SMEnv).loadResult
        = .error "no plugin class" →
      (install_plugin { envMetaRaisesW with loadResult := .error "no plugin class" }
          stInstallW "word-count").1
          = .error ("Failed to load plugin: " ++ "no plugin class") ∧
      pluginCacheDir stInstallW.source "word-count"
          ∉ (install_plugin { envMetaRaisesW with loadResult := .error "no plugin class" }
              stInstallW "word-count").2.1.cacheDirs) ∧
    (∀ lp, ({ envMetaRaisesW with loadResult := .error "no plugin class" } : SMEnv).loadResult
        = .ok lp → lp.getMeta = .error "no plugin class" →
      (install_plugin { envMetaRaisesW with loadResult := .error "no plugin class" }
          stInstallW "word-count").1 = .error "no plugin class" ∧
      pluginCacheDir stInstallW.source "word-count"
          ∈ (install_plugin { envMetaRaisesW with loadResult := .error "no plugin class" }
              stInstallW "word-count").2.1.cacheDirs) :=
  install_rollback_only_for_load_error
    { envMetaRaisesW with loadResult := .error "no plugin class" }
    stInstallW "word-count"
    { slug := "word-count", name := "Word Count", version := "1.0.0",
      entryPoint := some "plugin.py", path := "extensions/word-count" }
    "no plugin class" (by decide) rfl rfl rfl

end DataNexus
